import Mathlib

/-!
Verification of the data-quality metrics core (`eda_cli/core.py`).

The table model is a shallow embedding of a pandas `DataFrame`: a list of
named, typed columns, each holding `nRows` cells; a cell is `Option Val`
with `none` standing for a null (NaN/None) entry.  Float arithmetic of the
source is embedded as exact rational arithmetic (`ℚ`); the single place
where NumPy float semantics matter — the unguarded division
`duplicate_rows / n_rows`, which yields NaN when `n_rows = 0` — is embedded
explicitly with `Option ℚ` (`none` = NaN) together with Python's `min`,
whose comparison with NaN is `False`, making `min(0.2, nan) = 0.2`.
-/

/-- A cell value.  Only equality of values matters to the metrics code
(distinct counts, duplicate detection), so ints and strings suffice. -/
inductive Val where
  | i : Int → Val
  | s : String → Val
deriving DecidableEq, Repr

/-- The dtype classes the source distinguishes via `select_dtypes`:
`number`, `object`, `category`, `datetime`. -/
inductive DType where
  | numeric | object | category | datetime
deriving DecidableEq, Repr

/-- A named, typed column: `cells` lists the entries top to bottom,
`none` being a null entry. -/
structure Col where
  name : String
  dtype : DType
  cells : List (Option Val)
deriving DecidableEq, Repr

/-- A well-formed table: every column has exactly `nRows` cells and column
names are distinct (as in a pandas `DataFrame` with a regular header). -/
structure Table where
  nRows : Nat
  cols : List Col
  wfLen : ∀ c ∈ cols, c.cells.length = nRows
  wfNames : (cols.map Col.name).Nodup

/-- `Series.isnull().sum()`: number of null cells of a column. -/
def colNullCount (c : Col) : Nat := c.cells.countP (fun x => x.isNone)

/-- `df.isnull().sum().sum()`: number of null cells of the whole table. -/
def missingCells (t : Table) : Nat := (t.cols.map colNullCount).sum

/-- `Series.nunique()` (its default drops nulls): number of distinct
non-null values of a column. -/
def nuniqueDropna (c : Col) : Nat := (c.cells.filterMap id).dedup.length

/-- Number of entries of a list that repeat an earlier entry, i.e.
`duplicated().sum()`: length minus the number of distinct entries. -/
def dupCount {β : Type} [DecidableEq β] (l : List β) : Nat :=
  l.length - l.dedup.length

/-- The rows of a table, each a tuple of cells across the columns (pandas
treats null cells as equal to each other in `duplicated`, as does `Option`
equality here). -/
def Table.rows (t : Table) : List (List (Option Val)) :=
  (List.range t.nRows).map (fun i => t.cols.map (fun c => c.cells.getD i none))

/-- `select_dtypes(include=['object', 'category'])` membership test. -/
def isCategorical (d : DType) : Bool := d = DType.object || d = DType.category

/-- Whether the pattern occurs as a contiguous run inside the list
(Python's `in` on strings, over the character lists). -/
def hasSubstr (pat : List Char) : List Char → Bool
  | [] => pat.isEmpty
  | c :: rest => pat.isPrefixOf (c :: rest) || hasSubstr pat rest

/-- Python's `str.lower()` on the character list (column names are ASCII,
where Python lowers character by character). -/
def lowerChars (name : String) : List Char := name.data.map Char.toLower

/-- The candidate-identifier test of the source:
`'id' in col.lower() or col.lower() in ['id', 'index', 'key']`. -/
def isIdCandidate (name : String) : Bool :=
  hasSubstr "id".data (lowerChars name) ||
    (lowerChars name = "id".data || lowerChars name = "index".data ||
      lowerChars name = "key".data)

/-- NumPy float division as used by the source: the only zero-denominator
division the program performs has a zero numerator, so `none` stands for
the NaN that `0 / 0` produces; otherwise the exact quotient. -/
def nanDiv (a b : ℚ) : Option ℚ :=
  if b = 0 then none else some (a / b)

/-- Python's two-argument `min(c, x)` on floats where `x` may be NaN: the
comparison `x < c` is `False` for NaN, so `min(c, nan) = c`. -/
def pymin (c : ℚ) : Option ℚ → ℚ
  | none => c
  | some q => min c q

/-- The `'duplicates'` entry of the source's penalties dict:
`min(0.2, duplicate_rows / n_rows * 0.5)` — the division is NOT guarded,
so for a zero-row table it is `min(0.2, nan) = 0.2`. -/
def duplicates_penalty (t : Table) : ℚ :=
  pymin (1/5) (Option.map (fun q => q * (1/2))
    (nanDiv (dupCount t.rows : ℚ) (t.nRows : ℚ)))

/-- The record `compute_quality_flags` returns (the dicts
`high_cardinality_columns` and `suspicious_id_duplicates` become
association lists in insertion order; Python dicts preserve it). -/
structure QualityFlags where
  n_rows : Nat
  n_cols : Nat
  missing_share : ℚ
  has_missing : Bool
  duplicate_rows : Nat
  has_duplicates : Bool
  quality_score : ℚ
  min_missing_share : ℚ
  high_cardinality_threshold : Nat
  problematic_missing_cols : List (String × ℚ)
  has_constant_columns : Bool
  constant_columns_list : List String
  has_high_cardinality_categoricals : Bool
  high_cardinality_columns : List (String × Nat)
  has_suspicious_id_duplicates : Bool
  suspicious_id_duplicates : List (String × Nat)
  numeric_columns_count : Nat
  categorical_columns_count : Nat
  date_columns_count : Nat
deriving DecidableEq, Repr

/-- `compute_quality_flags(df, min_missing_share=0.3,
high_cardinality_threshold=50)` of `eda_cli/core.py`, embedded over the
table model with exact rational arithmetic. -/
def compute_quality_flags (t : Table)
    (min_missing_share : ℚ := 3/10)
    (high_cardinality_threshold : Nat := 50) : QualityFlags :=
  let n_rows := t.nRows
  let n_cols := t.cols.length
  let total_cells := n_rows * n_cols
  let missing_cells := missingCells t
  let missing_share : ℚ :=
    if 0 < total_cells then (missing_cells : ℚ) / (total_cells : ℚ) else 0
  let duplicate_rows := dupCount t.rows
  let problematic_missing_cols : List (String × ℚ) :=
    t.cols.filterMap (fun c =>
      match nanDiv (colNullCount c : ℚ) (n_rows : ℚ) with
      | none => none
      | some r => if min_missing_share < r then some (c.name, r) else none)
  let constant_cols : List String :=
    (t.cols.filter (fun c => nuniqueDropna c = 1)).map Col.name
  let high_cardinality_cols : List (String × Nat) :=
    (t.cols.filter (fun c =>
        isCategorical c.dtype && high_cardinality_threshold < nuniqueDropna c)).map
      (fun c => (c.name, nuniqueDropna c))
  let possible_id_cols := t.cols.filter (fun c => isIdCandidate c.name)
  let suspicious_id_duplicates : List (String × Nat) :=
    (possible_id_cols.filter (fun c => 0 < dupCount c.cells)).map
      (fun c => (c.name, dupCount c.cells))
  let penalties : List ℚ :=
    [missing_share * (1/2),
     duplicates_penalty t,
     (constant_cols.length : ℚ) * (1/10),
     (high_cardinality_cols.length : ℚ) * (1/20),
     (suspicious_id_duplicates.length : ℚ) * (3/20)]
  let quality_score := max 0 (min 1 (1 - penalties.sum))
  { n_rows := n_rows
    n_cols := n_cols
    missing_share := missing_share
    has_missing := 0 < missing_cells
    duplicate_rows := duplicate_rows
    has_duplicates := 0 < duplicate_rows
    quality_score := quality_score
    min_missing_share := min_missing_share
    high_cardinality_threshold := high_cardinality_threshold
    problematic_missing_cols := problematic_missing_cols
    has_constant_columns := 0 < constant_cols.length
    constant_columns_list := constant_cols
    has_high_cardinality_categoricals := 0 < high_cardinality_cols.length
    high_cardinality_columns := high_cardinality_cols
    has_suspicious_id_duplicates := 0 < suspicious_id_duplicates.length
    suspicious_id_duplicates := suspicious_id_duplicates
    numeric_columns_count :=
      (t.cols.filter (fun c => c.dtype = DType.numeric)).length
    categorical_columns_count :=
      (t.cols.filter (fun c => isCategorical c.dtype)).length
    date_columns_count :=
      (t.cols.filter (fun c => c.dtype = DType.datetime)).length }

/-- Round an exact rational to the nearest integer, ties to even — the
rounding Python's fixed-point `format` applies to the decimal expansion. -/
def roundHalfEven (q : ℚ) : Int :=
  if q - ⌊q⌋ < 1/2 then ⌊q⌋
  else if 1/2 < q - ⌊q⌋ then ⌊q⌋ + 1
  else if ⌊q⌋ % 2 = 0 then ⌊q⌋ else ⌊q⌋ + 1

/-- Python's `format(q, '.{d}f')` rendered from the exact rational. -/
def fmtFixed (q : ℚ) (d : Nat) : String :=
  let m : Int := roundHalfEven (q * ((10 : ℚ) ^ d))
  let sign := if m < 0 then "-" else ""
  let n := m.natAbs
  let fracStr := toString (n % 10 ^ d)
  let fracPad := String.mk (List.replicate (d - fracStr.length) '0') ++ fracStr
  sign ++ toString (n / 10 ^ d) ++ (if d = 0 then "" else "." ++ fracPad)

/-- Python's `format(q, '.1%')`: percentage with one decimal digit. -/
def fmtPct (q : ℚ) : String := fmtFixed (q * 100) 1 ++ "%"

/-- The first eight lines `generate_overview` always emits: header, rule,
size, missing share, duplicate rows, quality score, blank line, and the
problem-columns heading. -/
def overviewBase (flags : QualityFlags) : List String :=
  ["📊 ОБЗОР ДАННЫХ",
   String.mk (List.replicate 50 '='),
   "Размер: " ++ toString flags.n_rows ++ " строк × " ++
     toString flags.n_cols ++ " колонок",
   "Пропуски: " ++ fmtPct flags.missing_share,
   "Дубликаты строк: " ++ toString flags.duplicate_rows,
   "Качество данных (score): " ++ fmtFixed flags.quality_score 2 ++ "/1.00",
   "",
   "ПРОБЛЕМНЫЕ КОЛОНКИ:"]

/-- Lines appended for columns with a problematic missing share
(`if flags['problematic_missing_cols']:` — emitted only when non-empty). -/
def overviewMissingSection (flags : QualityFlags) : List String :=
  if flags.problematic_missing_cols.isEmpty then []
  else
    "  • С высоким % пропусков (>30%):" ::
      flags.problematic_missing_cols.map
        (fun p => "    - " ++ p.1 ++ ": " ++ fmtPct p.2)

/-- Lines appended for constant columns
(`if flags['has_constant_columns']:`). -/
def overviewConstantSection (flags : QualityFlags) : List String :=
  if flags.has_constant_columns then
    ["  • Константные: " ++ String.intercalate ", " flags.constant_columns_list]
  else []

/-- Lines appended for high-cardinality columns
(`if flags['has_high_cardinality_categoricals']:`). -/
def overviewHighCardSection (flags : QualityFlags) : List String :=
  if flags.has_high_cardinality_categoricals then
    "  • Высокая кардинальность:" ::
      flags.high_cardinality_columns.map
        (fun p => "    - " ++ p.1 ++ ": " ++ toString p.2 ++
          " уникальных значений")
  else []

/-- `generate_overview(df)` of `eda_cli/core.py`: calls
`compute_quality_flags` with its default thresholds and joins the lines
with newlines. -/
def generate_overview (t : Table) : String :=
  let flags := compute_quality_flags t
  String.intercalate "\n"
    (overviewBase flags ++ overviewMissingSection flags ++
      overviewConstantSection flags ++ overviewHighCardSection flags)

/-! Concrete tables used as witnesses and counterexamples. -/

/-- A zero-row table with one (numeric) column. -/
def emptyTable : Table :=
  ⟨0, [⟨"a", DType.numeric, []⟩], by decide, by decide⟩

/-- Ten rows; the single text column `status` is missing in 4 of them and
carries 6 distinct values otherwise (null ratio `0.4`). -/
def statusTable : Table :=
  ⟨10, [⟨"status", DType.object,
    [none, none, none, none,
     some (Val.s "a"), some (Val.s "b"), some (Val.s "c"),
     some (Val.s "d"), some (Val.s "e"), some (Val.s "f")]⟩],
   by decide, by decide⟩

/-- One row, ten constant numeric columns: the constant-column penalty is
`10 × 0.1 = 1.0`, driving the quality score to exactly `0`. -/
def tenConstTable : Table :=
  ⟨1, (List.range 10).map (fun k =>
      ⟨"c" ++ toString k, DType.numeric, [some (Val.i k)]⟩),
   by decide, by decide⟩

/-- A text column with two distinct non-null values and a null: pandas
`nunique()` gives 2, while counting null as a distinct value gives 3. -/
def nullCardTable : Table :=
  ⟨3, [⟨"c", DType.object,
    [some (Val.s "x"), some (Val.s "y"), none]⟩], by decide, by decide⟩

/-- Five rows; `user_id` holds `1, 1, 2, 2, 3`: two rows repeat an earlier
value among otherwise-unique values. -/
def userIdTable : Table :=
  ⟨5, [⟨"user_id", DType.numeric,
    [some (Val.i 1), some (Val.i 1), some (Val.i 2),
     some (Val.i 2), some (Val.i 3)]⟩], by decide, by decide⟩

/-- A single column with one repeated non-null value and no nulls. -/
def constTable : Table :=
  ⟨3, [⟨"k", DType.numeric,
    [some (Val.i 7), some (Val.i 7), some (Val.i 7)]⟩], by decide, by decide⟩

/-- A clean one-row table used to instantiate universally quantified
theorems. -/
def oneRowTable : Table :=
  ⟨1, [⟨"a", DType.numeric, [some (Val.i 0)]⟩], by decide, by decide⟩

/-- The distinct-value count as the spec words it for high-cardinality
detection: null counts as one extra distinct value when present.  Stated
from the spec's words, for comparison with the source's `nunique()`. -/
def specDistinctCountWithNull (c : Col) : Nat :=
  nuniqueDropna c + (if c.cells.any (fun x => x.isNone) then 1 else 0)

/-! Field-characterisation lemmas: each output field of
`compute_quality_flags`, read off the record literal. -/

lemma missing_share_eq (t : Table) (ms : ℚ) (hct : Nat) :
    (compute_quality_flags t ms hct).missing_share =
      if 0 < t.nRows * t.cols.length then
        (missingCells t : ℚ) / ((t.nRows * t.cols.length : Nat) : ℚ)
      else 0 := rfl

lemma quality_score_eq (t : Table) (ms : ℚ) (hct : Nat) :
    (compute_quality_flags t ms hct).quality_score =
      max 0 (min 1 (1 -
        ([(compute_quality_flags t ms hct).missing_share * (1/2),
          duplicates_penalty t,
          (((t.cols.filter (fun c => nuniqueDropna c = 1)).map Col.name).length : ℚ) * (1/10),
          (((t.cols.filter (fun c =>
              isCategorical c.dtype && hct < nuniqueDropna c)).map
              (fun c => (c.name, nuniqueDropna c))).length : ℚ) * (1/20),
          ((((t.cols.filter (fun c => isIdCandidate c.name)).filter
              (fun c => 0 < dupCount c.cells)).map
              (fun c => (c.name, dupCount c.cells))).length : ℚ) * (3/20)] : List ℚ).sum)) := rfl

lemma problematic_missing_cols_eq (t : Table) (ms : ℚ) (hct : Nat) :
    (compute_quality_flags t ms hct).problematic_missing_cols =
      t.cols.filterMap (fun c =>
        match nanDiv (colNullCount c : ℚ) (t.nRows : ℚ) with
        | none => none
        | some r => if ms < r then some (c.name, r) else none) := rfl

lemma constant_columns_list_eq (t : Table) (ms : ℚ) (hct : Nat) :
    (compute_quality_flags t ms hct).constant_columns_list =
      (t.cols.filter (fun c => nuniqueDropna c = 1)).map Col.name := rfl

lemma high_cardinality_columns_eq (t : Table) (ms : ℚ) (hct : Nat) :
    (compute_quality_flags t ms hct).high_cardinality_columns =
      (t.cols.filter (fun c =>
          isCategorical c.dtype && hct < nuniqueDropna c)).map
        (fun c => (c.name, nuniqueDropna c)) := rfl

lemma suspicious_id_duplicates_eq (t : Table) (ms : ℚ) (hct : Nat) :
    (compute_quality_flags t ms hct).suspicious_id_duplicates =
      ((t.cols.filter (fun c => isIdCandidate c.name)).filter
          (fun c => 0 < dupCount c.cells)).map
        (fun c => (c.name, dupCount c.cells)) := rfl

lemma has_missing_eq (t : Table) (ms : ℚ) (hct : Nat) :
    (compute_quality_flags t ms hct).has_missing =
      decide (0 < missingCells t) := rfl

lemma duplicate_rows_eq (t : Table) (ms : ℚ) (hct : Nat) :
    (compute_quality_flags t ms hct).duplicate_rows = dupCount t.rows := rfl

lemma has_duplicates_eq (t : Table) (ms : ℚ) (hct : Nat) :
    (compute_quality_flags t ms hct).has_duplicates =
      decide (0 < dupCount t.rows) := rfl

lemma has_constant_columns_eq (t : Table) (ms : ℚ) (hct : Nat) :
    (compute_quality_flags t ms hct).has_constant_columns =
      decide (0 < (compute_quality_flags t ms hct).constant_columns_list.length) := rfl

lemma has_high_cardinality_eq (t : Table) (ms : ℚ) (hct : Nat) :
    (compute_quality_flags t ms hct).has_high_cardinality_categoricals =
      decide (0 < (compute_quality_flags t ms hct).high_cardinality_columns.length) := rfl

lemma has_suspicious_eq (t : Table) (ms : ℚ) (hct : Nat) :
    (compute_quality_flags t ms hct).has_suspicious_id_duplicates =
      decide (0 < (compute_quality_flags t ms hct).suspicious_id_duplicates.length) := rfl

/-- In a zero-row well-formed table every column's cell list is empty. -/
lemma cells_nil_of_no_rows (t : Table) (h : t.nRows = 0) :
    ∀ c ∈ t.cols, c.cells = [] := by
  intro c hc
  have := t.wfLen c hc
  rw [h] at this
  exact List.eq_nil_of_length_eq_zero this

/-- For a zero-row table the unguarded division makes the duplicate
penalty `min(0.2, nan) = 0.2`. -/
lemma duplicates_penalty_of_no_rows (t : Table) (h : t.nRows = 0) :
    duplicates_penalty t = 1/5 := by
  unfold duplicates_penalty nanDiv
  rw [h]
  simp [pymin]

/-- For a positive row count the duplicate penalty is the ordinary
`min(0.2, duplicate_rows / n_rows * 0.5)`. -/
lemma duplicates_penalty_of_rows (t : Table) (h : 0 < t.nRows) :
    duplicates_penalty t =
      min (1/5) ((dupCount t.rows : ℚ) / (t.nRows : ℚ) * (1/2)) := by
  unfold duplicates_penalty nanDiv
  rw [if_neg (by exact_mod_cast h.ne')]
  simp [pymin]

/-- C1, amended.  `compute_quality_flags` is total over well-formed
tables and a zero-row table yields `missing_share = 0` without raising,
as claimed; but the `row_count` division of the duplicate penalty is NOT
guarded: for a zero-row table `duplicate_rows / n_rows` is NaN (`0 / 0`)
and Python's `min(0.2, nan)` returns `0.2`, so the duplicate penalty is
`0.2` (not `0`) and the quality score of a zero-row table is `0.8`. -/
theorem c1_zero_row_behaviour (t : Table) (ms : ℚ) (hct : Nat)
    (h : t.nRows = 0) :
    (compute_quality_flags t ms hct).missing_share = 0 ∧
    duplicates_penalty t = 1/5 ∧
    (compute_quality_flags t ms hct).quality_score = 4/5 := by
  have hcells := cells_nil_of_no_rows t h
  have hnu : ∀ c ∈ t.cols, nuniqueDropna c = 0 := by
    intro c hc
    rw [nuniqueDropna, hcells c hc]
    rfl
  have hms : (compute_quality_flags t ms hct).missing_share = 0 := by
    rw [missing_share_eq, h]
    simp
  refine ⟨hms, duplicates_penalty_of_no_rows t h, ?_⟩
  rw [quality_score_eq, hms, duplicates_penalty_of_no_rows t h]
  have h1 : t.cols.filter (fun c => nuniqueDropna c = 1) = [] := by
    rw [List.filter_eq_nil_iff]
    intro c hc
    simp [hnu c hc]
  have h2 : t.cols.filter
      (fun c => isCategorical c.dtype && hct < nuniqueDropna c) = [] := by
    rw [List.filter_eq_nil_iff]
    intro c hc
    simp [hnu c hc]
  have h3 : (t.cols.filter (fun c => isIdCandidate c.name)).filter
      (fun c => 0 < dupCount c.cells) = [] := by
    rw [List.filter_eq_nil_iff]
    intro c hc
    have hc' : c ∈ t.cols := List.mem_of_mem_filter hc
    simp [dupCount, hcells c hc']
  rw [h1, h2, h3]
  norm_num

/-- Witness: the concrete zero-row table `emptyTable` instantiates
`c1_zero_row_behaviour`. -/
theorem c1_zero_row_behaviour_witness :
    emptyTable.nRows = 0 ∧
    ((compute_quality_flags emptyTable (3/10) 50).missing_share = 0 ∧
     duplicates_penalty emptyTable = 1/5 ∧
     (compute_quality_flags emptyTable (3/10) 50).quality_score = 4/5) :=
  ⟨rfl, c1_zero_row_behaviour emptyTable (3/10) 50 rfl⟩

/-- Counterexample to C1 as stated: for the zero-row table the duplicate
penalty is not `0` (it is `0.2`). -/
theorem c1_counterexample :
    emptyTable.nRows = 0 ∧ duplicates_penalty emptyTable ≠ 0 := by
  refine ⟨rfl, ?_⟩
  rw [duplicates_penalty_of_no_rows emptyTable rfl]
  norm_num

/-- C3: for every table with at least one row the quality score equals
`clamp(1 − (missing_share·0.5 + min(0.2, dup/rows·0.5) + constants·0.1 +
high_card·0.05 + id_dups·0.15), 0, 1)`, and the concrete table with ten
constant columns scores exactly `0`. -/
theorem c3_score_formula :
    (∀ (t : Table) (ms : ℚ) (hct : Nat), 0 < t.nRows →
      (compute_quality_flags t ms hct).quality_score =
        max 0 (min 1 (1 -
          ((compute_quality_flags t ms hct).missing_share * (1/2) +
           min (1/5) ((dupCount t.rows : ℚ) / (t.nRows : ℚ) * (1/2)) +
           ((compute_quality_flags t ms hct).constant_columns_list.length : ℚ) * (1/10) +
           ((compute_quality_flags t ms hct).high_cardinality_columns.length : ℚ) * (1/20) +
           ((compute_quality_flags t ms hct).suspicious_id_duplicates.length : ℚ) * (3/20))))) ∧
    (compute_quality_flags tenConstTable).quality_score = 0 := by
  constructor
  · intro t ms hct h
    rw [quality_score_eq, duplicates_penalty_of_rows t h]
    simp only [constant_columns_list_eq, high_cardinality_columns_eq,
      suspicious_id_duplicates_eq, List.sum_cons, List.sum_nil]
    ring_nf
  · rw [quality_score_eq, missing_share_eq,
        duplicates_penalty_of_rows tenConstTable (by decide)]
    rw [show missingCells tenConstTable = 0 from by decide,
        show dupCount tenConstTable.rows = 0 from by decide,
        show tenConstTable.nRows = 1 from rfl,
        show tenConstTable.cols.length = 10 from by decide,
        show ((tenConstTable.cols.filter
            (fun c => nuniqueDropna c = 1)).map Col.name).length = 10 from by decide,
        show ((tenConstTable.cols.filter (fun c =>
            isCategorical c.dtype && (50:Nat) < nuniqueDropna c)).map
            (fun c => (c.name, nuniqueDropna c))).length = 0 from by decide,
        show (((tenConstTable.cols.filter (fun c => isIdCandidate c.name)).filter
            (fun c => 0 < dupCount c.cells)).map
            (fun c => (c.name, dupCount c.cells))).length = 0 from by decide]
    norm_num

/-- Witness: `c3_score_formula` instantiated at the clean one-row table. -/
theorem c3_score_formula_witness :
    (compute_quality_flags oneRowTable (3/10) 50).quality_score =
      max 0 (min 1 (1 -
        ((compute_quality_flags oneRowTable (3/10) 50).missing_share * (1/2) +
         min (1/5) ((dupCount oneRowTable.rows : ℚ) / (oneRowTable.nRows : ℚ) * (1/2)) +
         ((compute_quality_flags oneRowTable (3/10) 50).constant_columns_list.length : ℚ) * (1/10) +
         ((compute_quality_flags oneRowTable (3/10) 50).high_cardinality_columns.length : ℚ) * (1/20) +
         ((compute_quality_flags oneRowTable (3/10) 50).suspicious_id_duplicates.length : ℚ) * (3/20)))) :=
  c3_score_formula.1 oneRowTable (3/10) 50 (by decide)

/-- Counterexample to C4 as stated: in `nullCardTable` the sole column is
text-typed and has 3 distinct values when null is counted as one (spec's
counting rule), so with threshold 2 the claim demands it be flagged; the
source's `nunique()` drops nulls (count 2) and does not flag it. -/
theorem c4_counterexample :
    nullCardTable.cols.map
        (fun c => (c.name, isCategorical c.dtype, specDistinctCountWithNull c)) =
      [("c", true, 3)] ∧
    (compute_quality_flags nullCardTable (3/10) 2).high_cardinality_columns = [] := by
  refine ⟨by decide, ?_⟩
  rw [high_cardinality_columns_eq]
  decide

/-- C4, amended: a column is reported as high cardinality iff it is
text/categorical-typed and its distinct NON-NULL value count (pandas
`nunique()`, which drops nulls) strictly exceeds the threshold; the entry
records the column name and that count. -/
theorem c4_high_cardinality_membership (t : Table) (ms : ℚ) (hct : Nat)
    (name : String) (k : Nat) :
    (name, k) ∈ (compute_quality_flags t ms hct).high_cardinality_columns ↔
      ∃ c ∈ t.cols, c.name = name ∧ isCategorical c.dtype = true ∧
        nuniqueDropna c = k ∧ hct < k := by
  rw [high_cardinality_columns_eq]
  simp only [List.mem_map, List.mem_filter, Bool.and_eq_true,
    decide_eq_true_eq, Prod.mk.injEq]
  constructor
  · rintro ⟨c, ⟨hc, hcat, hlt⟩, hname, hk⟩
    exact ⟨c, hc, hname, hcat, hk, hk ▸ hlt⟩
  · rintro ⟨c, hc, hname, hcat, hk, hlt⟩
    exact ⟨c, ⟨hc, hcat, hk ▸ hlt⟩, hname, hk⟩

/-- C5: with at least one row, a column appears among the problematic
missing columns iff its null ratio strictly exceeds `min_missing_share`,
recorded as (name, ratio); the 10-row `status` example appears with ratio
`0.4` under threshold `0.3` and not under `0.5`. -/
theorem c5_problematic_missing :
    (∀ (t : Table) (ms : ℚ) (hct : Nat) (name : String) (r : ℚ), 0 < t.nRows →
      ((name, r) ∈ (compute_quality_flags t ms hct).problematic_missing_cols ↔
        ∃ c ∈ t.cols, c.name = name ∧
          r = (colNullCount c : ℚ) / (t.nRows : ℚ) ∧ ms < r)) ∧
    (compute_quality_flags statusTable (3/10) 50).problematic_missing_cols =
      [("status", 2/5)] ∧
    (compute_quality_flags statusTable (1/2) 50).problematic_missing_cols = [] := by
  refine ⟨?_, ?_, ?_⟩
  · intro t ms hct name r h
    have hn : (t.nRows : ℚ) ≠ 0 := by exact_mod_cast h.ne'
    rw [problematic_missing_cols_eq]
    simp only [nanDiv, if_neg hn, List.mem_filterMap]
    constructor
    · rintro ⟨c, hc, hf⟩
      by_cases hlt : ms < (colNullCount c : ℚ) / (t.nRows : ℚ)
      · rw [if_pos hlt] at hf
        obtain ⟨h1, h2⟩ := Prod.mk.injEq .. ▸ Option.some.inj hf
        exact ⟨c, hc, h1, h2.symm, h2 ▸ hlt⟩
      · rw [if_neg hlt] at hf
        exact absurd hf (by simp)
    · rintro ⟨c, hc, hname, hr, hlt⟩
      refine ⟨c, hc, ?_⟩
      rw [if_pos (hr ▸ hlt), hname, hr]
  · rw [problematic_missing_cols_eq]
    norm_num [statusTable, nanDiv, List.filterMap_cons, List.countP_cons,
      List.countP_nil, colNullCount]
  · rw [problematic_missing_cols_eq]
    norm_num [statusTable, nanDiv, List.filterMap_cons, List.countP_cons,
      List.countP_nil, colNullCount]

/-- Witness: `c5_problematic_missing` instantiated at the 10-row `status`
table with threshold `0.3` and ratio `0.4`. -/
theorem c5_problematic_missing_witness :
    ("status", (2:ℚ)/5) ∈
        (compute_quality_flags statusTable (3/10) 50).problematic_missing_cols ↔
      ∃ c ∈ statusTable.cols, c.name = "status" ∧
        (2:ℚ)/5 = (colNullCount c : ℚ) / (statusTable.nRows : ℚ) ∧
        (3:ℚ)/10 < (2:ℚ)/5 :=
  c5_problematic_missing.1 statusTable (3/10) 50 "status" (2/5) (by decide)

/-- C2: for every table and any thresholds, the quality score lies in
`[0, 1]` — it is clamped with `max(0.0, min(1.0, ·))`. -/
theorem c2_quality_score_bounded (t : Table) (ms : ℚ) (hct : Nat) :
    0 ≤ (compute_quality_flags t ms hct).quality_score ∧
    (compute_quality_flags t ms hct).quality_score ≤ 1 := by
  rw [quality_score_eq]
  exact ⟨le_max_left 0 _, max_le (by norm_num) (min_le_left 1 _)⟩

/-- C6: a column appears among the suspicious identifier duplicates iff
its name passes the candidate-identifier test (contains `id`
case-insensitively, or lower-cases to `id`/`index`/`key`) and its
beyond-first-occurrence duplicate count is positive, the entry recording
name and count; `user_id` holding `1,1,2,2,3` yields count 2. -/
theorem c6_suspicious_id_duplicates :
    (∀ (t : Table) (ms : ℚ) (hct : Nat) (name : String) (k : Nat),
      (name, k) ∈ (compute_quality_flags t ms hct).suspicious_id_duplicates ↔
        ∃ c ∈ t.cols, c.name = name ∧ isIdCandidate c.name = true ∧
          dupCount c.cells = k ∧ 0 < k) ∧
    (compute_quality_flags userIdTable).suspicious_id_duplicates =
      [("user_id", 2)] := by
  constructor
  · intro t ms hct name k
    rw [suspicious_id_duplicates_eq]
    simp only [List.mem_map, List.mem_filter, decide_eq_true_eq, Prod.mk.injEq]
    constructor
    · rintro ⟨c, ⟨⟨hc, hid⟩, hpos⟩, hname, hk⟩
      exact ⟨c, hc, hname, hid, hk, hk ▸ hpos⟩
    · rintro ⟨c, hc, hname, hid, hk, hpos⟩
      exact ⟨c, ⟨⟨hc, hid⟩, hk ▸ hpos⟩, hname, hk⟩
  · rw [suspicious_id_duplicates_eq]
    decide

/-- C7: a name appears in the constant-columns list iff the column has
exactly one distinct non-null value; the list never repeats a name (so
such a column appears exactly once), and the concrete constant column
`k` is listed exactly once. -/
theorem c7_constant_columns :
    (∀ (t : Table) (ms : ℚ) (hct : Nat),
      (∀ name : String,
        name ∈ (compute_quality_flags t ms hct).constant_columns_list ↔
          ∃ c ∈ t.cols, c.name = name ∧ nuniqueDropna c = 1) ∧
      (compute_quality_flags t ms hct).constant_columns_list.Nodup) ∧
    (compute_quality_flags constTable).constant_columns_list = ["k"] := by
  constructor
  · intro t ms hct
    constructor
    · intro name
      rw [constant_columns_list_eq]
      simp only [List.mem_map, List.mem_filter, decide_eq_true_eq]
      constructor
      · rintro ⟨c, ⟨hc, h1⟩, hname⟩
        exact ⟨c, hc, hname, h1⟩
      · rintro ⟨c, hc, hname, h1⟩
        exact ⟨c, ⟨hc, h1⟩, hname⟩
    · rw [constant_columns_list_eq]
      exact t.wfNames.sublist (t.cols.filter_sublist.map Col.name)
  · rw [constant_columns_list_eq]
    decide

/-- C8: the metrics computation is deterministic — identical tables and
identical thresholds yield identical output records. -/
theorem c8_deterministic (t₁ t₂ : Table) (ms₁ ms₂ : ℚ) (h₁ h₂ : Nat)
    (ht : t₁ = t₂) (hms : ms₁ = ms₂) (hh : h₁ = h₂) :
    compute_quality_flags t₁ ms₁ h₁ = compute_quality_flags t₂ ms₂ h₂ := by
  rw [ht, hms, hh]

/-- Witness: `c8_deterministic` at the one-row table with the default
thresholds. -/
theorem c8_deterministic_witness :
    compute_quality_flags oneRowTable (3/10) 50 =
      compute_quality_flags oneRowTable (3/10) 50 :=
  c8_deterministic oneRowTable oneRowTable (3/10) (3/10) 50 50 rfl rfl rfl

/-- C9: `generate_overview` renders, from the flags computed with the
default thresholds `0.3` and `50`, the fixed header block (title, rule,
size, missing share, duplicate count, quality score, blank line, problem
heading) followed by the three bulleted sections, and each section is
empty exactly when its corresponding list is empty. -/
theorem c9_overview_structure (t : Table) :
    generate_overview t =
      String.intercalate "\n"
        (["📊 ОБЗОР ДАННЫХ",
          String.mk (List.replicate 50 '='),
          "Размер: " ++ toString (compute_quality_flags t (3/10) 50).n_rows ++
            " строк × " ++ toString (compute_quality_flags t (3/10) 50).n_cols ++
            " колонок",
          "Пропуски: " ++ fmtPct (compute_quality_flags t (3/10) 50).missing_share,
          "Дубликаты строк: " ++
            toString (compute_quality_flags t (3/10) 50).duplicate_rows,
          "Качество данных (score): " ++
            fmtFixed (compute_quality_flags t (3/10) 50).quality_score 2 ++
            "/1.00",
          "",
          "ПРОБЛЕМНЫЕ КОЛОНКИ:"] ++
         overviewMissingSection (compute_quality_flags t (3/10) 50) ++
         overviewConstantSection (compute_quality_flags t (3/10) 50) ++
         overviewHighCardSection (compute_quality_flags t (3/10) 50)) ∧
    (overviewMissingSection (compute_quality_flags t (3/10) 50) = [] ↔
      (compute_quality_flags t (3/10) 50).problematic_missing_cols = []) ∧
    (overviewConstantSection (compute_quality_flags t (3/10) 50) = [] ↔
      (compute_quality_flags t (3/10) 50).constant_columns_list = []) ∧
    (overviewHighCardSection (compute_quality_flags t (3/10) 50) = [] ↔
      (compute_quality_flags t (3/10) 50).high_cardinality_columns = []) := by
  refine ⟨rfl, ?_, ?_, ?_⟩
  · cases h : (compute_quality_flags t (3/10) 50).problematic_missing_cols <;>
      simp [overviewMissingSection, h]
  · cases h : (compute_quality_flags t (3/10) 50).constant_columns_list <;>
      simp [overviewConstantSection, has_constant_columns_eq, h]
  · cases h : (compute_quality_flags t (3/10) 50).high_cardinality_columns <;>
      simp [overviewHighCardSection, has_high_cardinality_eq, h]

/-- C10: every boolean flag of the output record agrees with its
companion value: `has_missing` with the missing-cell count,
`has_duplicates` with the duplicate-row count, and the three `has_*`
flags with non-emptiness of their lists. -/
theorem c10_flag_consistency (t : Table) (ms : ℚ) (hct : Nat) :
    ((compute_quality_flags t ms hct).has_missing = true ↔
      0 < missingCells t) ∧
    ((compute_quality_flags t ms hct).has_duplicates = true ↔
      0 < (compute_quality_flags t ms hct).duplicate_rows) ∧
    ((compute_quality_flags t ms hct).has_constant_columns = true ↔
      (compute_quality_flags t ms hct).constant_columns_list ≠ []) ∧
    ((compute_quality_flags t ms hct).has_high_cardinality_categoricals = true ↔
      (compute_quality_flags t ms hct).high_cardinality_columns ≠ []) ∧
    ((compute_quality_flags t ms hct).has_suspicious_id_duplicates = true ↔
      (compute_quality_flags t ms hct).suspicious_id_duplicates ≠ []) := by
  refine ⟨?_, ?_, ?_, ?_, ?_⟩ <;>
    simp [has_missing_eq, has_duplicates_eq, duplicate_rows_eq,
      has_constant_columns_eq, has_high_cardinality_eq, has_suspicious_eq,
      List.length_pos]
